import Mathlib

/-!
Verification of the Doppler-parameter-space lattice scanner
(`DopplerLatticeCovering.c`).  The numerical layer of the C code (REAL8
arithmetic) is modelled over the exact reals; machine integers of the
index-walk are modelled by `ℤ` and `ℕ`.  Every definition mirrors the
corresponding C function of the source file; names follow the source.
-/

set_option maxHeartbeats 1000000

noncomputable section

/-- `hemisphere_t` of the source: `HEMI_BOTH = 0`, `HEMI_NORTH = 1`, `HEMI_SOUTH = 2`. -/
inductive hemisphere_t
  | HEMI_BOTH
  | HEMI_NORTH
  | HEMI_SOUTH
deriving DecidableEq

/-- `scan_state_t`: idle / ready / finished states of a `DopplerLatticeScan`. -/
inductive scan_state_t
  | STATE_IDLE
  | STATE_READY
  | STATE_FINISHED
deriving DecidableEq

/-- `#define EPS_REAL8 1e-10`, the relative error used in REAL8 comparisons. -/
def EPS_REAL8 : ℝ := 1e-10

/-- `LAL_TWOPI` (modelled as the exact real 2π). -/
def LAL_TWOPI : ℝ := 2 * Real.pi

/-- `LAL_AU_SI`: one astronomical unit in meters. -/
def LAL_AU_SI : ℝ := 1.4959787066e11

/-- `LAL_C_SI`: speed of light in m/s. -/
def LAL_C_SI : ℝ := 299792458

/-- The binary exponent returned by C `frexp`: for `x ≠ 0` the unique `e`
with `2^(e-1) ≤ |x| < 2^e`; `frexp(0)` stores exponent `0`. -/
def frexpExp (x : ℝ) : ℤ :=
  if x = 0 then 0 else Int.log 2 |x| + 1

/-- The absolute half-width `delta = ldexp(eps, exponent)` used by `gsl_fcmp`,
where `exponent` is the `frexp` exponent of the larger magnitude of the two
operands. -/
def gslDelta (eps x y : ℝ) : ℝ :=
  eps * (2 : ℝ) ^ frexpExp (max |x| |y|)

/-- `gsl_fcmp(x1, x2, eps)`: approximate comparison of two reals with
relative tolerance `eps`; returns `1` if `x1 - x2 > delta`, `-1` if
`x1 - x2 < -delta` and `0` otherwise. -/
def gsl_fcmp (x1 x2 eps : ℝ) : ℤ :=
  if x1 - x2 > gslDelta eps x1 x2 then 1
  else if x1 - x2 < -gslDelta eps x1 x2 then -1
  else 0

/-- The `VECT_HEMI` macro: hemisphere of a 3-vector by the sign of its third
(ecliptic-z) component; zero gives `HEMI_BOTH` (value 0 in the source). -/
def vectHemi (v : Fin 3 → ℝ) : hemisphere_t :=
  if v 2 < 0 then .HEMI_SOUTH
  else if 0 < v 2 then .HEMI_NORTH
  else .HEMI_BOTH

/-- `PulsarSpinRange`: lower bounds `fkdot` and band widths `fkdotBand` of the
spin search box (`PulsarSpins` is `REAL8[4]`; the reference time plays no role
in the boundary test). -/
structure PulsarSpinRange where
  fkdot : Fin 4 → ℝ
  fkdotBand : Fin 4 → ℝ

/-- `dopplerBoundary_t`: 2D ecliptic sky polygon `{nX, nY}`, its hemisphere,
and the spin search box. -/
structure dopplerBoundary_t where
  skyRegion : List (ℝ × ℝ)
  hemisphere : hemisphere_t
  fkRange : PulsarSpinRange

/-- `dopplerParams_t`: unit sky vector `vn` and spins `fkdot`. -/
@[ext]
structure dopplerParams_t where
  vn : Fin 3 → ℝ
  fkdot : Fin 4 → ℝ

/-- A `gsl_matrix`: row and column counts plus entries (row, column). -/
structure GslMatrix where
  size1 : ℕ
  size2 : ℕ
  get : ℕ → ℕ → ℝ

/-- `DopplerLatticeScan`: the mutable scan state of the source
(`state`, `Tspan`, `dimSearch`, `boundary`, `latticeOrigin`,
`latticeGenerator`, `index`). -/
structure DopplerLatticeScan where
  state : scan_state_t
  Tspan : ℝ
  dimSearch : ℕ
  boundary : dopplerBoundary_t
  latticeOrigin : List ℝ
  latticeGenerator : GslMatrix
  index : List ℤ

/-- One edge of the polygon crosses the horizontal ray through `(px, py)` to
the right of the point (`xinter > px`): the candidate pre-selection
(`py < min`, `py ≥ max` or horizontal edge is skipped) followed by the
intersection test of `vect2DInPolygon`. -/
def edgeCrossRight (px py : ℝ) (v1 v2 : ℝ × ℝ) : Prop :=
  ¬(py < min v1.2 v2.2 ∨ py ≥ max v1.2 v2.2 ∨ v1.2 = v2.2) ∧
    v1.1 + (py - v1.2) * (v2.1 - v1.1) / (v2.2 - v1.2) > px

/-- Same, crossing to the left of the point (`xinter < px`). -/
def edgeCrossLeft (px py : ℝ) (v1 v2 : ℝ × ℝ) : Prop :=
  ¬(py < min v1.2 v2.2 ∨ py ≥ max v1.2 v2.2 ∨ v1.2 = v2.2) ∧
    v1.1 + (py - v1.2) * (v2.1 - v1.1) / (v2.2 - v1.2) < px

open Classical in
/-- `vect2DInPolygon(point, polygon)`: ray-crossing point-in-polygon test.
Degenerate 1-point polygon compares both coordinates with
`gsl_fcmp(..., 1e-10)`; fewer than 3 points (other than 1) is an error
(`-1`); otherwise the point is inside iff the number of crossings to its
left or to its right is odd.  Returns TRUE (1), FALSE (0) or -1. -/
def vect2DInPolygon (point : ℝ × ℝ) (polygon : List (ℝ × ℝ)) : ℤ :=
  let N := polygon.length
  let px := point.1
  let py := point.2
  if N = 1 then
    let vertex := polygon.getD 0 (0, 0)
    if gsl_fcmp vertex.1 px 1e-10 = 0 ∧ gsl_fcmp vertex.2 py 1e-10 = 0 then 1 else 0
  else if N < 3 then -1
  else
    let insideLeft := (List.range N).countP fun i =>
      decide (edgeCrossRight px py (polygon.getD i (0, 0)) (polygon.getD ((i + 1) % N) (0, 0)))
    let insideRight := (List.range N).countP fun i =>
      decide (edgeCrossLeft px py (polygon.getD i (0, 0)) (polygon.getD ((i + 1) % N) (0, 0)))
    if insideLeft % 2 = 1 ∨ insideRight % 2 = 1 then 1 else 0

/-- `isDopplerInsideBoundary(doppler, boundary)`: conjunction (as C ints) of
the polygon test on `(vn[0], vn[1])`, the hemisphere match, and the
`gsl_fcmp`-widened spin-interval tests for all `numSpins = 4` spins.
Returns TRUE (1), FALSE (0) or -1 on a polygon error. -/
def isDopplerInsideBoundary (doppler : dopplerParams_t) (boundary : dopplerBoundary_t) : ℤ :=
  if vect2DInPolygon (doppler.vn 0, doppler.vn 1) boundary.skyRegion < 0 then -1
  else if vect2DInPolygon (doppler.vn 0, doppler.vn 1) boundary.skyRegion ≠ 0 ∧
      vectHemi doppler.vn = boundary.hemisphere ∧
      ∀ s : Fin 4,
        ¬(gsl_fcmp (doppler.fkdot s)
              (boundary.fkRange.fkdot s + boundary.fkRange.fkdotBand s) EPS_REAL8 > 0 ∨
          gsl_fcmp (doppler.fkdot s) (boundary.fkRange.fkdot s) EPS_REAL8 < 0) then 1
  else 0

/-- `convertSpins2Canonical(wk, fkdot, Tspan)`: canonical spins
`wk[s] = prefact * fkdot[s]` where `prefact` starts at `2π·Tspan` and is
multiplied by `Tspan` after each iteration, i.e. `wk[s] = 2π·T^(s+1)·fkdot[s]`
(the source's own comment). -/
def convertSpins2Canonical (fkdot : Fin 4 → ℝ) (Tspan : ℝ) : Fin 4 → ℝ :=
  fun s => LAL_TWOPI * Tspan * Tspan ^ (s : ℕ) * fkdot s

/-- `convertDoppler2Canonical(doppler, Tspan)`: canonical point
`{w0, kX, kY, w1, w2, w3}` with `kX = -prefix·vn[0]`, `kY = -prefix·vn[1]`,
`prefix = 2π·Rorb/c·fkdot[0]`.  The result always has `2 + numSpins = 6`
components (`numSpins = sizeof(PulsarSpins)/sizeof(REAL8) = 4`). -/
def convertDoppler2Canonical (doppler : dopplerParams_t) (Tspan : ℝ) : List ℝ :=
  let prefact := LAL_TWOPI * LAL_AU_SI / LAL_C_SI * doppler.fkdot 0
  let kX := -prefact * doppler.vn 0
  let kY := -prefact * doppler.vn 1
  let wk := convertSpins2Canonical doppler.fkdot Tspan
  [wk 0, kX, kY, wk 1, wk 2, wk 3]

/-- `numSpins = canonical->size - 2` of `convertCanonical2Doppler`
(natural subtraction; the C `UINT4` agrees for `size ≥ 2`). -/
def c2dNumSpins (canonical : List ℝ) : ℕ := canonical.length - 2

/-- The spin vector recovered by `convertCanonical2Doppler`:
`fkdot[0] = w0/(2πT)`, `fkdot[s] = wk/(2πT^(s+1))` for `1 ≤ s < numSpins`,
remaining spins stay at their zero initialisation. -/
def c2dFkdot (canonical : List ℝ) (Tspan : ℝ) : Fin 4 → ℝ :=
  fun s =>
    if (s : ℕ) = 0 then canonical.getD 0 0 / (LAL_TWOPI * Tspan)
    else if (s : ℕ) < c2dNumSpins canonical then
      canonical.getD ((s : ℕ) + 2) 0 / (LAL_TWOPI * Tspan ^ ((s : ℕ) + 1))
    else 0

/-- The sky prefactor `2π·Rorb/c·fkdot[0]` of `convertCanonical2Doppler`. -/
def c2dPrefact (canonical : List ℝ) (Tspan : ℝ) : ℝ :=
  LAL_TWOPI * LAL_AU_SI / LAL_C_SI * c2dFkdot canonical Tspan 0

/-- `nX = -kX / (2π·Rorb·f/c)` recovered by `convertCanonical2Doppler`. -/
def c2dVn0 (canonical : List ℝ) (Tspan : ℝ) : ℝ :=
  -canonical.getD 1 0 / c2dPrefact canonical Tspan

/-- `nY = -kY / (2π·Rorb·f/c)` recovered by `convertCanonical2Doppler`. -/
def c2dVn1 (canonical : List ℝ) (Tspan : ℝ) : ℝ :=
  -canonical.getD 2 0 / c2dPrefact canonical Tspan

/-- `vn2 = nX² + nY²` of `convertCanonical2Doppler`. -/
def c2dVn2sq (canonical : List ℝ) (Tspan : ℝ) : ℝ :=
  c2dVn0 canonical Tspan ^ 2 + c2dVn1 canonical Tspan ^ 2

/-- `convertCanonical2Doppler(doppler, canonical, hemi, Tspan)`: rejects a
hemisphere tag other than North/South and more spins than `PulsarSpins`
holds; recovers the spins and `(nX, nY)`; errors if
`gsl_fcmp(vn2, 1.0, EPS_REAL8) > 0`; otherwise
`nZ = sqrt(fabs(1 - vn2))`, negated for the southern hemisphere. -/
def convertCanonical2Doppler (canonical : List ℝ) (hemi : hemisphere_t) (Tspan : ℝ) :
    Option dopplerParams_t :=
  if hemi ≠ .HEMI_NORTH ∧ hemi ≠ .HEMI_SOUTH then none
  else if c2dNumSpins canonical > 4 then none
  else if gsl_fcmp (c2dVn2sq canonical Tspan) 1 EPS_REAL8 > 0 then none
  else
    some { vn := ![c2dVn0 canonical Tspan, c2dVn1 canonical Tspan,
                   (if hemi = .HEMI_SOUTH then -1 else 1) *
                     Real.sqrt |1 - c2dVn2sq canonical Tspan|],
           fkdot := c2dFkdot canonical Tspan }

/-- `indexToCanonicalOffset(canonicalOffset, index, generator)`:
`offset = index · generator` (row vector times matrix).  The generator must
be square of the index dimension and the preallocated output (of size
`outLen`) at least as long as the index; the output is zeroed first, so
components past the index dimension stay 0.  `none` models the `-1` error
return. -/
def indexToCanonicalOffset (outLen : ℕ) (index : List ℤ) (generator : GslMatrix) :
    Option (List ℝ) :=
  if generator.size1 ≠ index.length ∨ generator.size2 ≠ index.length then none
  else if outLen < index.length then none
  else
    some ((List.range outLen).map fun i =>
      if i < index.length then
        ∑ j ∈ Finset.range index.length, (index.getD j 0 : ℝ) * generator.get j i
      else 0)

/-- `XLALindexToDoppler(doppler, index, scan)`: canonical point
`= latticeOrigin + index·generator` (a vector of the origin's size),
then `convertCanonical2Doppler` with the boundary's hemisphere.
`none` models every `-1` error return. -/
def XLALindexToDoppler (index : List ℤ) (scan : DopplerLatticeScan) :
    Option dopplerParams_t :=
  match indexToCanonicalOffset scan.latticeOrigin.length index scan.latticeGenerator with
  | none => none
  | some offset =>
      let canonical := List.zipWith (· + ·) offset scan.latticeOrigin
      convertCanonical2Doppler canonical scan.boundary.hemisphere scan.Tspan

/-- `isIndexInsideBoundary(index, scan)`: TRUE (1), FALSE (0), or -1 on
error (scan not ready, or the index-to-Doppler transform failed). -/
def isIndexInsideBoundary (index : List ℤ) (scan : DopplerLatticeScan) : ℤ :=
  if scan.state ≠ .STATE_READY then -1
  else
    match XLALindexToDoppler index scan with
    | none => -1
    | some doppler => isDopplerInsideBoundary doppler scan.boundary

/-- `XLALgetCurrentLatticeIndex(index, scan)`: a copy of the scan's current
index; errors unless the scan is in `STATE_READY`. -/
def XLALgetCurrentLatticeIndex (scan : DopplerLatticeScan) : Option (List ℤ) :=
  if scan.state = .STATE_READY then some scan.index else none

/-- `XLALsetCurrentLatticeIndex(scan, index)`: overwrite the scan's current
index; errors unless the scan is `STATE_READY` and the dimension matches. -/
def XLALsetCurrentLatticeIndex (scan : DopplerLatticeScan) (index : List ℤ) :
    Option DopplerLatticeScan :=
  if scan.state = .STATE_READY ∧ index.length = scan.dimSearch then
    some { scan with index := index }
  else none

/-- The install-and-break step of the advance loop: store the accepted
trial index via `XLALsetCurrentLatticeIndex` and return 0, or return the
error `-1` (scan untouched) when the install fails. -/
def installIndex (scan : DopplerLatticeScan) (idx : List ℤ) : DopplerLatticeScan × ℤ :=
  match XLALsetCurrentLatticeIndex scan idx with
  | some scan2 => (scan2, 0)
  | none => (scan, -1)

/-- The stepping loop of `XLALadvanceLatticeIndex` over axes `aI`:
`index0` is the local working copy of the scan's index.  At each axis the
trial is `index0` with component `aI` stepped away from the origin
(`+1` when `index0[aI] ≥ 0`, else `-1`).  A trial whose
`isIndexInsideBoundary` is non-zero — the C truthiness test, which also
fires on the `-1` error value — is installed via
`XLALsetCurrentLatticeIndex` and the loop returns 0 (or -1 if the install
fails).  Otherwise, when going up, the trial `index0` with component
`aI = -1` is tried the same way; failing that, component `aI` is zeroed and
the next axis is tried.  Once `aI` reaches `dimSearch` the loop reports 1:
no lattice points left. -/
def advanceLoop (scan : DopplerLatticeScan) (index0 : List ℤ) (aI : ℕ) :
    DopplerLatticeScan × ℤ :=
  if aI < scan.dimSearch then
    let i0 := index0.getD aI 0
    let goingUp := ¬i0 < 0
    let next_index := index0.set aI (i0 + if goingUp then 1 else -1)
    if isIndexInsideBoundary next_index scan ≠ 0 then
      installIndex scan next_index
    else if goingUp ∧ isIndexInsideBoundary (index0.set aI (-1)) scan ≠ 0 then
      installIndex scan (index0.set aI (-1))
    else advanceLoop scan (index0.set aI 0) (aI + 1)
  else (scan, 1)
termination_by scan.dimSearch - aI
decreasing_by omega

/-- `XLALadvanceLatticeIndex(scan)`: error (-1) unless the scan is
`STATE_READY`; otherwise runs the stepping loop from axis 0 on a copy of
the current index.  Returns the (possibly updated) scan together with the
C return value: 0 = advanced, 1 = no more lattice points, -1 = error. -/
def XLALadvanceLatticeIndex (scan : DopplerLatticeScan) : DopplerLatticeScan × ℤ :=
  if scan.state = .STATE_READY then advanceLoop scan scan.index 0
  else (scan, -1)

/-- The scanning loop of `onWhichHemisphere`: `our` is the first non-zero
hemisphere seen so far; a later point of a different non-zero hemisphere
returns `HEMI_BOTH` immediately. -/
def onWhichHemisphereLoop (our : hemisphere_t) : List (Fin 3 → ℝ) → hemisphere_t
  | [] => our
  | p :: rest =>
      let thisHemi := vectHemi p
      let our2 := if our = .HEMI_BOTH ∧ thisHemi ≠ .HEMI_BOTH then thisHemi else our
      if thisHemi ≠ .HEMI_BOTH ∧ thisHemi ≠ our2 then .HEMI_BOTH
      else onWhichHemisphereLoop our2 rest

/-- `onWhichHemisphere(skypoints)`: `HEMI_NORTH`/`HEMI_SOUTH` when all
points with non-zero `z` lie on that hemisphere, else `HEMI_BOTH`.  An
empty list returns `FALSE`, whose value 0 is `HEMI_BOTH`. -/
def onWhichHemisphere (skypoints : List (Fin 3 → ℝ)) : hemisphere_t :=
  if skypoints.length = 0 then .HEMI_BOTH
  else onWhichHemisphereLoop .HEMI_BOTH skypoints

/-- The sky-hemisphere step of `setupSearchRegion`: the boundary hemisphere
is `onWhichHemisphere(points3D)`, and `HEMI_BOTH` aborts initialization
with the invalid-input error (`none`). -/
def setupSearchRegionHemisphere (points3D : List (Fin 3 → ℝ)) : Option hemisphere_t :=
  if onWhichHemisphere points3D = .HEMI_BOTH then none
  else some (onWhichHemisphere points3D)

/-- Modelled from the spec: the outward-walk advance algorithm of §4.5,
stated over an abstract boolean inside test.  Starting at axis `a`:
if `a = D` report Finished (`none`; since the walk starts at axis 0 and
increments by one, the guard is written `D ≤ a`); otherwise try the trial `i` with
`i[a]` stepped `+1` when `i[a] ≥ 0` and `-1` otherwise, accepting it when
inside; when going up additionally try setting component `a` to `-1`;
otherwise zero component `a` and move to axis `a+1`. -/
def specOutwardWalk (inside : List ℤ → Bool) (D : ℕ) (i : List ℤ) (a : ℕ) :
    Option (List ℤ) :=
  if D ≤ a then none
  else
    let trial := if 0 ≤ i.getD a 0 then i.set a (i.getD a 0 + 1) else i.set a (i.getD a 0 - 1)
    if inside trial then some trial
    else if 0 ≤ i.getD a 0 ∧ inside (i.set a (-1)) then some (i.set a (-1))
    else specOutwardWalk inside D (i.set a 0) (a + 1)
termination_by D - a
decreasing_by omega

/-! Concrete instances used to exercise the model. -/

/-- The sky prefactor constant `2π·Rorb/c`. -/
def rorbPref : ℝ := LAL_TWOPI * LAL_AU_SI / LAL_C_SI

/-- A boundary with a one-point sky polygon at `(5, 5)`, northern
hemisphere, and the degenerate spin box `[1, 1] × {0}³`. -/
def boundaryW : dopplerBoundary_t :=
  { skyRegion := [(5, 5)]
    hemisphere := .HEMI_NORTH
    fkRange := { fkdot := ![1, 0, 0, 0], fkdotBand := ![0, 0, 0, 0] } }

/-- Lattice origin `{w0, kX, kY, w1, w2, w3} = {2π, 0, 0, 0, 0, 0}`:
with `Tspan = 1` it is the canonical image of frequency 1 at the northern
pole `vn = (0, 0, 1)`. -/
def originW : List ℝ := [LAL_TWOPI, 0, 0, 0, 0, 0]

/-- The zero 3×3 generator: every lattice index maps onto the origin. -/
def G0W : GslMatrix := { size1 := 3, size2 := 3, get := fun _ _ => 0 }

/-- A ready 3-dimensional scan whose every index maps to the origin point,
which lies outside the polygon of `boundaryW`: every advance trial tests
FALSE, so the very first advance call reports exhaustion. -/
def scanW : DopplerLatticeScan :=
  { state := .STATE_READY, Tspan := 1, dimSearch := 3, boundary := boundaryW
    latticeOrigin := originW, latticeGenerator := G0W, index := [0, 0, 0] }

/-- Generator whose row 0 adds `2π·Rorb/c` to the `kX` slot: the first
advance trial `[1,0,0]` maps to the sky vector `(-2, 0, ·)` outside the
unit disk, so its index-to-Doppler transform fails. -/
def GBug : GslMatrix :=
  { size1 := 3, size2 := 3, get := fun j i => if j = 0 ∧ i = 1 then rorbPref else 0 }

/-- Origin `{2π, 2π·Rorb/c, 0, 0, 0, 0}`: frequency 1 with `vn = (-1, 0, 0)`. -/
def originBug : List ℝ := [LAL_TWOPI, rorbPref, 0, 0, 0, 0]

/-- A ready scan on which the first advance trial index `[1, 0, 0]` makes
`isIndexInsideBoundary` report the error `-1`. -/
def scanBug : DopplerLatticeScan :=
  { state := .STATE_READY, Tspan := 1, dimSearch := 3, boundary := boundaryW
    latticeOrigin := originBug, latticeGenerator := GBug, index := [0, 0, 0] }

/-- A Doppler point with unit sky vector `(3/5, 0, 4/5)` and frequency 1. -/
def dW5 : dopplerParams_t := { vn := ![3/5, 0, 4/5], fkdot := ![1, 0, 0, 0] }

/-- The northern pole at frequency 1. -/
def dW4 : dopplerParams_t := { vn := ![0, 0, 1], fkdot := ![1, 0, 0, 0] }

/-- Boundary containing the pole: one-point polygon at the origin of the
`(nX, nY)` plane, northern hemisphere, spin box `[1, 1] × {0}³`. -/
def bW4 : dopplerBoundary_t :=
  { skyRegion := [(0, 0)]
    hemisphere := .HEMI_NORTH
    fkRange := { fkdot := ![1, 0, 0, 0], fkdotBand := ![0, 0, 0, 0] } }

/-- A canonical point (for `Tspan = 1`) whose recovered sky projection has
`nX² + nY² = 1 + 10⁻¹⁰`: above 1, yet within the `gsl_fcmp` tolerance. -/
def cIn6 : List ℝ := [LAL_TWOPI, -(rorbPref * Real.sqrt (1 + 1e-10)), 0, 0, 0, 0]

/-- A one-point list of sky vertices lying exactly on the ecliptic plane. -/
def ptsW10 : List (Fin 3 → ℝ) := [![1, 0, 0]]

end

/-! ## Helper lemmas about the `gsl_fcmp` tolerance -/

lemma gslDelta_nonneg {eps : ℝ} (heps : 0 ≤ eps) (x y : ℝ) : 0 ≤ gslDelta eps x y :=
  mul_nonneg heps (le_of_lt (zpow_pos (by norm_num) _))

lemma gsl_fcmp_pos_iff (x y eps : ℝ) :
    0 < gsl_fcmp x y eps ↔ gslDelta eps x y < x - y := by
  unfold gsl_fcmp
  split_ifs with h1 h2
  · exact iff_of_true (by norm_num) h1
  · exact iff_of_false (by norm_num) h1
  · exact iff_of_false (by norm_num) h1

lemma gsl_fcmp_neg_iff {eps : ℝ} (heps : 0 ≤ eps) (x y : ℝ) :
    gsl_fcmp x y eps < 0 ↔ x - y < -gslDelta eps x y := by
  have hd := gslDelta_nonneg heps x y
  unfold gsl_fcmp
  split_ifs with h1 h2
  · exact iff_of_false (by norm_num) (by intro hc; linarith)
  · exact iff_of_true (by norm_num) h2
  · exact iff_of_false (by norm_num) h2

lemma gsl_fcmp_eq_zero_iff (x y eps : ℝ) :
    gsl_fcmp x y eps = 0 ↔ |x - y| ≤ gslDelta eps x y := by
  rw [abs_le]
  unfold gsl_fcmp
  split_ifs with h1 h2
  · refine iff_of_false (by norm_num) ?_
    rintro ⟨-, hb⟩
    linarith
  · refine iff_of_false (by norm_num) ?_
    rintro ⟨ha, -⟩
    linarith
  · exact iff_of_true rfl ⟨by linarith, by linarith⟩

lemma abs_lt_two_zpow_frexpExp (x : ℝ) : x ≠ 0 → |x| < (2 : ℝ) ^ frexpExp x := by
  intro hx
  unfold frexpExp
  rw [if_neg hx]
  exact_mod_cast Int.lt_zpow_succ_log_self (b := 2) (by norm_num) |x|

lemma two_zpow_frexpExp_le (x : ℝ) : x ≠ 0 → (2 : ℝ) ^ frexpExp x ≤ 2 * |x| := by
  intro hx
  unfold frexpExp
  rw [if_neg hx]
  have hlog : (2 : ℝ) ^ Int.log 2 |x| ≤ |x| :=
    Int.zpow_log_le_self (b := 2) (by norm_num) (abs_pos.mpr hx)
  calc (2 : ℝ) ^ (Int.log 2 |x| + 1) = (2 : ℝ) ^ Int.log 2 |x| * 2 :=
        zpow_add_one₀ two_ne_zero _
    _ ≤ |x| * 2 := by linarith
    _ = 2 * |x| := mul_comm _ _

lemma gslDelta_le {eps : ℝ} (heps : 0 ≤ eps) (x y : ℝ) (h : max |x| |y| ≠ 0) :
    gslDelta eps x y ≤ eps * (2 * max |x| |y|) := by
  unfold gslDelta
  have hm0 : (0 : ℝ) ≤ max |x| |y| := le_trans (abs_nonneg x) (le_max_left _ _)
  have h2 := two_zpow_frexpExp_le (max |x| |y|) h
  rw [abs_of_nonneg hm0] at h2
  exact mul_le_mul_of_nonneg_left h2 heps

lemma gslDelta_ge {eps : ℝ} (heps : 0 ≤ eps) (x y : ℝ) (h : max |x| |y| ≠ 0) :
    eps * max |x| |y| ≤ gslDelta eps x y := by
  unfold gslDelta
  have hm0 : (0 : ℝ) ≤ max |x| |y| := le_trans (abs_nonneg x) (le_max_left _ _)
  have h2 := abs_lt_two_zpow_frexpExp (max |x| |y|) h
  rw [abs_of_nonneg hm0] at h2
  exact mul_le_mul_of_nonneg_left (le_of_lt h2) heps

lemma gsl_fcmp_not_pos_of_le {eps : ℝ} (heps : 0 ≤ eps) {x y : ℝ} (h : x ≤ y) :
    ¬0 < gsl_fcmp x y eps := by
  rw [gsl_fcmp_pos_iff]
  have := gslDelta_nonneg heps x y
  linarith

lemma gsl_fcmp_self {eps : ℝ} (heps : 0 ≤ eps) (x : ℝ) : gsl_fcmp x x eps = 0 := by
  rw [gsl_fcmp_eq_zero_iff]
  simpa using gslDelta_nonneg heps x x

/-! ## Evaluation lemmas for vector literals -/

lemma vec3_at0 (a b c : ℝ) : ![a, b, c] 0 = a := rfl

lemma vec3_at1 (a b c : ℝ) : ![a, b, c] 1 = b := rfl

lemma vec3_at2 (a b c : ℝ) : ![a, b, c] 2 = c := rfl

lemma vec4_at0 (a b c e : ℝ) : ![a, b, c, e] 0 = a := rfl

lemma vec4_at1 (a b c e : ℝ) : ![a, b, c, e] 1 = b := rfl

lemma vec4_at2 (a b c e : ℝ) : ![a, b, c, e] 2 = c := rfl

lemma vec4_at3 (a b c e : ℝ) : ![a, b, c, e] 3 = e := rfl

lemma vec3_eta (v : Fin 3 → ℝ) : ![v 0, v 1, v 2] = v := by
  funext i
  fin_cases i <;> rfl

/-! ## C8: the one-point polygon test -/

/-- C8: for a polygon of length exactly 1, the point-in-polygon test accepts
the query iff both coordinates agree with the single vertex within the
symmetric relative tolerance ε = 10⁻¹⁰ of `gsl_fcmp` (absolute half-width
`gslDelta`, the tolerance scaled by the binary magnitude of the larger
operand). -/
theorem C8_one_point_polygon (p v : ℝ × ℝ) :
    vect2DInPolygon p [v] = 1 ↔
      |p.1 - v.1| ≤ gslDelta 1e-10 v.1 p.1 ∧ |p.2 - v.2| ≤ gslDelta 1e-10 v.2 p.2 := by
  have h1 : vect2DInPolygon p [v] =
      if gsl_fcmp v.1 p.1 1e-10 = 0 ∧ gsl_fcmp v.2 p.2 1e-10 = 0 then 1 else 0 := by
    unfold vect2DInPolygon
    simp
  rw [h1, abs_sub_comm p.1 v.1, abs_sub_comm p.2 v.2,
    ← gsl_fcmp_eq_zero_iff, ← gsl_fcmp_eq_zero_iff]
  split_ifs with h
  · simpa using h
  · simpa using h

/-! ## C4: the Doppler-point-in-boundary test -/

lemma vect2DInPolygon_le_one (p : ℝ × ℝ) (polygon : List (ℝ × ℝ)) :
    vect2DInPolygon p polygon ≤ 1 := by
  unfold vect2DInPolygon
  dsimp only
  split_ifs <;> norm_num

lemma spin_interval_iff {f lo hi : ℝ} :
    (¬(gsl_fcmp f hi EPS_REAL8 > 0 ∨ gsl_fcmp f lo EPS_REAL8 < 0)) ↔
      (lo - gslDelta EPS_REAL8 f lo ≤ f ∧ f ≤ hi + gslDelta EPS_REAL8 f hi) := by
  have heps : (0 : ℝ) ≤ EPS_REAL8 := by norm_num [EPS_REAL8]
  rw [not_or]
  simp only [gt_iff_lt]
  rw [gsl_fcmp_pos_iff, gsl_fcmp_neg_iff heps, not_lt, not_lt]
  constructor
  · rintro ⟨h1, h2⟩
    exact ⟨by linarith, by linarith⟩
  · rintro ⟨h1, h2⟩
    exact ⟨by linarith, by linarith⟩

/-- C4: `isDopplerInsideBoundary` returns TRUE exactly when the projection
`(vn[0], vn[1])` passes the polygon test, the hemisphere of `vn` matches the
boundary's tag, and every one of the 4 spins lies in the closed interval
`[fkdot₀[s], fkdot₀[s]+fkdotBand[s]]` widened at each end by the symmetric
relative tolerance `gslDelta` of `gsl_fcmp` at ε = 10⁻¹⁰; in particular
(second conjunct) a point whose spins lie exactly in the closed interval —
endpoint values included — is classified inside. -/
theorem C4_inside_boundary_characterization (d : dopplerParams_t) (b : dopplerBoundary_t) :
    (isDopplerInsideBoundary d b = 1 ↔
      vect2DInPolygon (d.vn 0, d.vn 1) b.skyRegion = 1 ∧
      vectHemi d.vn = b.hemisphere ∧
      ∀ s : Fin 4,
        b.fkRange.fkdot s - gslDelta EPS_REAL8 (d.fkdot s) (b.fkRange.fkdot s) ≤
            d.fkdot s ∧
        d.fkdot s ≤ b.fkRange.fkdot s + b.fkRange.fkdotBand s +
            gslDelta EPS_REAL8 (d.fkdot s)
              (b.fkRange.fkdot s + b.fkRange.fkdotBand s)) ∧
    (vect2DInPolygon (d.vn 0, d.vn 1) b.skyRegion = 1 →
      vectHemi d.vn = b.hemisphere →
      (∀ s : Fin 4, b.fkRange.fkdot s ≤ d.fkdot s ∧
          d.fkdot s ≤ b.fkRange.fkdot s + b.fkRange.fkdotBand s) →
      isDopplerInsideBoundary d b = 1) := by
  have heps : (0 : ℝ) ≤ EPS_REAL8 := by norm_num [EPS_REAL8]
  have hle := vect2DInPolygon_le_one (d.vn 0, d.vn 1) b.skyRegion
  have hmain : isDopplerInsideBoundary d b = 1 ↔
      vect2DInPolygon (d.vn 0, d.vn 1) b.skyRegion = 1 ∧
      vectHemi d.vn = b.hemisphere ∧
      ∀ s : Fin 4,
        b.fkRange.fkdot s - gslDelta EPS_REAL8 (d.fkdot s) (b.fkRange.fkdot s) ≤
            d.fkdot s ∧
        d.fkdot s ≤ b.fkRange.fkdot s + b.fkRange.fkdotBand s +
            gslDelta EPS_REAL8 (d.fkdot s)
              (b.fkRange.fkdot s + b.fkRange.fkdotBand s) := by
    unfold isDopplerInsideBoundary
    split_ifs with hneg hcond
    · refine iff_of_false (by norm_num) ?_
      rintro ⟨h1, -, -⟩
      omega
    · refine iff_of_true rfl ⟨by omega, hcond.2.1, fun s => (spin_interval_iff).mp (hcond.2.2 s)⟩
    · refine iff_of_false (by norm_num) ?_
      rintro ⟨h1, h2, h3⟩
      exact hcond ⟨by omega, h2, fun s => (spin_interval_iff).mpr (h3 s)⟩
  refine ⟨hmain, fun h1 h2 h3 => hmain.mpr ⟨h1, h2, fun s => ?_⟩⟩
  have hd1 := gslDelta_nonneg heps (d.fkdot s) (b.fkRange.fkdot s)
  have hd2 := gslDelta_nonneg heps (d.fkdot s) (b.fkRange.fkdot s + b.fkRange.fkdotBand s)
  obtain ⟨ha, hb⟩ := h3 s
  exact ⟨by linarith, by linarith⟩

/-- Witness for C4 at the concrete point `dW4` and boundary `bW4`. -/
theorem C4_witness : isDopplerInsideBoundary dW4 bW4 = 1 := by
  have heps10 : (0 : ℝ) ≤ 1e-10 := by norm_num
  refine (C4_inside_boundary_characterization dW4 bW4).2 ?_ ?_ ?_
  · show vect2DInPolygon ((0 : ℝ), (0 : ℝ)) [((0 : ℝ), (0 : ℝ))] = 1
    unfold vect2DInPolygon
    norm_num
    exact gsl_fcmp_self (by norm_num) 0
  · show vectHemi ![(0 : ℝ), 0, 1] = .HEMI_NORTH
    unfold vectHemi
    norm_num
  · intro s
    fin_cases s <;> norm_num [dW4, bW4]

/-! ## C10: hemisphere classification of all-ecliptic-plane polygons -/

lemma onWhichHemisphereLoop_all_zero :
    ∀ l : List (Fin 3 → ℝ), (∀ p ∈ l, p 2 = 0) → ∀ our, onWhichHemisphereLoop our l = our := by
  intro l
  induction l with
  | nil => intro _ our; rfl
  | cons p rest ih =>
      intro h our
      have hp : vectHemi p = .HEMI_BOTH := by
        unfold vectHemi
        rw [h p (by simp)]
        norm_num
      unfold onWhichHemisphereLoop
      simp only [hp]
      simp only [ne_eq, not_true_eq_false, and_false, if_false, false_and, if_neg]
      exact ih (fun q hq => h q (by simp [hq])) our

/-- C10: every non-empty vertex list whose ecliptic-z components are all
exactly zero is classified `HEMI_BOTH` by `onWhichHemisphere`, so the
hemisphere step of `setupSearchRegion` rejects it, even though no two of
its vertices lie on strictly opposite hemispheres; the empty list gets the
same `HEMI_BOTH` value. -/
theorem C10_zero_z_polygon_rejected (pts : List (Fin 3 → ℝ)) (_hne : pts ≠ [])
    (hz : ∀ p ∈ pts, p 2 = 0) :
    (onWhichHemisphere pts = .HEMI_BOTH ∧
     setupSearchRegionHemisphere pts = none ∧
     ∀ p ∈ pts, ∀ q ∈ pts,
       ¬(vectHemi p = .HEMI_NORTH ∧ vectHemi q = .HEMI_SOUTH)) ∧
    onWhichHemisphere ([] : List (Fin 3 → ℝ)) = .HEMI_BOTH := by
  have hmain : onWhichHemisphere pts = .HEMI_BOTH := by
    unfold onWhichHemisphere
    split_ifs with h
    · rfl
    · exact onWhichHemisphereLoop_all_zero pts hz _
  refine ⟨⟨hmain, ?_, ?_⟩, ?_⟩
  · unfold setupSearchRegionHemisphere
    rw [hmain]
    simp
  · intro p hp q hq
    rintro ⟨hP, -⟩
    have hB : vectHemi p = .HEMI_BOTH := by
      unfold vectHemi
      rw [hz p hp]
      norm_num
    rw [hB] at hP
    exact absurd hP (by simp)
  · rfl

/-- Witness for C10 at the one-vertex list `ptsW10` on the ecliptic plane. -/
theorem C10_witness :
    onWhichHemisphere ptsW10 = .HEMI_BOTH ∧ setupSearchRegionHemisphere ptsW10 = none := by
  have hz : ∀ p ∈ ptsW10, p 2 = 0 := by
    intro p hp
    simp only [ptsW10, List.mem_singleton] at hp
    subst hp
    rfl
  have h := (C10_zero_z_polygon_rejected ptsW10 (by simp [ptsW10]) hz).1
  exact ⟨h.1, h.2.1⟩

/-! ## C7: the Doppler-to-canonical components -/

/-- C7 counterexample: `scanW` has active search dimension
`dimSearch = 2 + s* = 3`, yet `convertDoppler2Canonical` produces a vector
of length 6 — the claim's length `D = 2 + s*` is wrong; the length is
always `2 + S` with `S = 4` the `PulsarSpins` capacity. -/
theorem C7_counterexample :
    scanW.dimSearch = 3 ∧
    (convertDoppler2Canonical dW4 scanW.Tspan).length = 6 ∧ (6 : ℕ) ≠ 3 :=
  ⟨rfl, rfl, by norm_num⟩

/-- C7 (amended): `convertDoppler2Canonical` produces the vector
`(w0, kX, kY, w1, w2, w3)` of length `2 + S = 6` (`S = 4` the maximum spin
order, independent of the scan's active spin dimension), with
`w_s = 2π·T^(s+1)·fkdot[s]` and
`kX/kY = -(2π·R_orb/c)·fkdot[0]·vn[0/1]`. -/
theorem C7_doppler2canonical_components (d : dopplerParams_t) (Tspan : ℝ) :
    (convertDoppler2Canonical d Tspan).length = 6 ∧
    (convertDoppler2Canonical d Tspan).getD 0 0 = LAL_TWOPI * Tspan * d.fkdot 0 ∧
    (convertDoppler2Canonical d Tspan).getD 1 0 =
      -(LAL_TWOPI * LAL_AU_SI / LAL_C_SI * d.fkdot 0) * d.vn 0 ∧
    (convertDoppler2Canonical d Tspan).getD 2 0 =
      -(LAL_TWOPI * LAL_AU_SI / LAL_C_SI * d.fkdot 0) * d.vn 1 ∧
    (convertDoppler2Canonical d Tspan).getD 3 0 = LAL_TWOPI * Tspan ^ 2 * d.fkdot 1 ∧
    (convertDoppler2Canonical d Tspan).getD 4 0 = LAL_TWOPI * Tspan ^ 3 * d.fkdot 2 ∧
    (convertDoppler2Canonical d Tspan).getD 5 0 = LAL_TWOPI * Tspan ^ 4 * d.fkdot 3 := by
  unfold convertDoppler2Canonical convertSpins2Canonical
  refine ⟨rfl, ?_, rfl, rfl, ?_, ?_, ?_⟩ <;>
    simp only [List.getD_cons_zero, List.getD_cons_succ,
      show ((0 : Fin 4) : ℕ) = 0 from rfl, show ((1 : Fin 4) : ℕ) = 1 from rfl,
      show ((2 : Fin 4) : ℕ) = 2 from rfl, show ((3 : Fin 4) : ℕ) = 3 from rfl] <;>
    ring

/-! ## C5: round trip Doppler → canonical → Doppler -/

lemma d2c_components (d : dopplerParams_t) (Tspan : ℝ) :
    convertDoppler2Canonical d Tspan =
      [LAL_TWOPI * Tspan * d.fkdot 0,
       -(LAL_TWOPI * LAL_AU_SI / LAL_C_SI * d.fkdot 0) * d.vn 0,
       -(LAL_TWOPI * LAL_AU_SI / LAL_C_SI * d.fkdot 0) * d.vn 1,
       LAL_TWOPI * Tspan ^ 2 * d.fkdot 1,
       LAL_TWOPI * Tspan ^ 3 * d.fkdot 2,
       LAL_TWOPI * Tspan ^ 4 * d.fkdot 3] := by
  unfold convertDoppler2Canonical convertSpins2Canonical
  simp only [show ((0 : Fin 4) : ℕ) = 0 from rfl, show ((1 : Fin 4) : ℕ) = 1 from rfl,
    show ((2 : Fin 4) : ℕ) = 2 from rfl, show ((3 : Fin 4) : ℕ) = 3 from rfl,
    List.cons.injEq, and_true]
  refine ⟨by ring, trivial, trivial, by ring, by ring, by ring⟩

lemma LAL_TWOPI_ne_zero : LAL_TWOPI ≠ 0 := by
  unfold LAL_TWOPI
  exact mul_ne_zero two_ne_zero Real.pi_ne_zero

lemma rorb_factor_ne_zero : LAL_TWOPI * LAL_AU_SI / LAL_C_SI ≠ 0 := by
  apply div_ne_zero
  · exact mul_ne_zero LAL_TWOPI_ne_zero (by norm_num [LAL_AU_SI])
  · norm_num [LAL_C_SI]

/-- C5: for a Doppler point with a unit sky vector whose planar projection
has squared norm below `(1-ε)²`, whose hemisphere matches the tag passed to
the inverse, and whose frequency is non-zero, canonical conversion followed
by the inverse reproduces the Doppler point exactly (the model computes
with exact reals, so "within ε" is met with equality); consequently
re-converting the recovered point reproduces the canonical vector. -/
theorem C5_doppler_canonical_roundtrip (d : dopplerParams_t) (hemi : hemisphere_t)
    (Tspan : ℝ) (hT : 0 < Tspan)
    (hunit : d.vn 0 ^ 2 + d.vn 1 ^ 2 + d.vn 2 ^ 2 = 1)
    (hdisk : d.vn 0 ^ 2 + d.vn 1 ^ 2 < (1 - EPS_REAL8) ^ 2)
    (hhemi : vectHemi d.vn = hemi)
    (hf0 : d.fkdot 0 ≠ 0) :
    convertCanonical2Doppler (convertDoppler2Canonical d Tspan) hemi Tspan = some d ∧
    ∀ dp, convertCanonical2Doppler (convertDoppler2Canonical d Tspan) hemi Tspan = some dp →
      convertDoppler2Canonical dp Tspan = convertDoppler2Canonical d Tspan := by
  have heps : (0 : ℝ) ≤ EPS_REAL8 := by norm_num [EPS_REAL8]
  have hTne : Tspan ≠ 0 := ne_of_gt hT
  have h2pi := LAL_TWOPI_ne_zero
  have hpref : LAL_TWOPI * LAL_AU_SI / LAL_C_SI * d.fkdot 0 ≠ 0 :=
    mul_ne_zero rorb_factor_ne_zero hf0
  have hc := d2c_components d Tspan
  -- the recovered spins
  have hfk0 : c2dFkdot (convertDoppler2Canonical d Tspan) Tspan 0 = d.fkdot 0 := by
    unfold c2dFkdot
    rw [hc]
    simp only [show ((0 : Fin 4) : ℕ) = 0 from rfl, if_pos rfl, if_true,
      List.getD_cons_zero]
    rw [div_eq_iff (mul_ne_zero h2pi hTne)]
    ring
  have hfk1 : c2dFkdot (convertDoppler2Canonical d Tspan) Tspan 1 = d.fkdot 1 := by
    unfold c2dFkdot
    rw [hc]
    simp only [show ((1 : Fin 4) : ℕ) = 1 from rfl, c2dNumSpins, List.length_cons,
      List.length_nil, List.getD_cons_zero, List.getD_cons_succ]
    norm_num
    rw [div_eq_iff (mul_ne_zero h2pi (pow_ne_zero 2 hTne))]
    ring
  have hfk2 : c2dFkdot (convertDoppler2Canonical d Tspan) Tspan 2 = d.fkdot 2 := by
    unfold c2dFkdot
    rw [hc]
    simp only [show ((2 : Fin 4) : ℕ) = 2 from rfl, c2dNumSpins, List.length_cons,
      List.length_nil, List.getD_cons_zero, List.getD_cons_succ]
    norm_num
    rw [div_eq_iff (mul_ne_zero h2pi (pow_ne_zero 3 hTne))]
    ring
  have hfk3 : c2dFkdot (convertDoppler2Canonical d Tspan) Tspan 3 = d.fkdot 3 := by
    unfold c2dFkdot
    rw [hc]
    simp only [show ((3 : Fin 4) : ℕ) = 3 from rfl, c2dNumSpins, List.length_cons,
      List.length_nil, List.getD_cons_zero, List.getD_cons_succ]
    norm_num
    rw [div_eq_iff (mul_ne_zero h2pi (pow_ne_zero 4 hTne))]
    ring
  have hfk : c2dFkdot (convertDoppler2Canonical d Tspan) Tspan = d.fkdot := by
    funext s
    fin_cases s
    · exact hfk0
    · exact hfk1
    · exact hfk2
    · exact hfk3
  -- the recovered planar sky components
  have hpre2 : c2dPrefact (convertDoppler2Canonical d Tspan) Tspan =
      LAL_TWOPI * LAL_AU_SI / LAL_C_SI * d.fkdot 0 := by
    unfold c2dPrefact
    rw [hfk]
  have hxcancel : ∀ x : ℝ,
      -(-(LAL_TWOPI * LAL_AU_SI / LAL_C_SI * d.fkdot 0) * x) /
        (LAL_TWOPI * LAL_AU_SI / LAL_C_SI * d.fkdot 0) = x := by
    intro x
    rw [div_eq_iff hpref]
    ring
  have hvn0 : c2dVn0 (convertDoppler2Canonical d Tspan) Tspan = d.vn 0 := by
    unfold c2dVn0
    rw [hpre2, hc]
    simp only [List.getD_cons_zero, List.getD_cons_succ]
    exact hxcancel (d.vn 0)
  have hvn1 : c2dVn1 (convertDoppler2Canonical d Tspan) Tspan = d.vn 1 := by
    unfold c2dVn1
    rw [hpre2, hc]
    simp only [List.getD_cons_zero, List.getD_cons_succ]
    exact hxcancel (d.vn 1)
  have hsq : c2dVn2sq (convertDoppler2Canonical d Tspan) Tspan =
      d.vn 0 ^ 2 + d.vn 1 ^ 2 := by
    unfold c2dVn2sq
    rw [hvn0, hvn1]
  -- the third sky component
  have hvn2sq : 1 - (d.vn 0 ^ 2 + d.vn 1 ^ 2) = d.vn 2 ^ 2 := by linarith
  have hvn2ne : d.vn 2 ≠ 0 := by
    intro h0
    rw [h0] at hunit
    have : (1 - EPS_REAL8) ^ 2 < 1 := by norm_num [EPS_REAL8]
    nlinarith
  have hsqrt : Real.sqrt |1 - c2dVn2sq (convertDoppler2Canonical d Tspan) Tspan| =
      |d.vn 2| := by
    rw [hsq, hvn2sq, abs_of_nonneg (sq_nonneg _), Real.sqrt_sq_eq_abs]
  -- evaluate the inverse conversion
  have hnum : ¬c2dNumSpins (convertDoppler2Canonical d Tspan) > 4 := by
    rw [hc]
    norm_num [c2dNumSpins]
  have hfcmp : ¬0 < gsl_fcmp (c2dVn2sq (convertDoppler2Canonical d Tspan) Tspan) 1
      EPS_REAL8 := by
    rw [hsq]
    exact gsl_fcmp_not_pos_of_le heps (by nlinarith [sq_nonneg (d.vn 2)])
  have hmain : convertCanonical2Doppler (convertDoppler2Canonical d Tspan) hemi Tspan =
      some d := by
    unfold vectHemi at hhemi
    unfold convertCanonical2Doppler
    split_ifs at hhemi with hlt hgt
    · -- southern hemisphere
      subst hhemi
      rw [if_neg (by simp), if_neg hnum, if_neg hfcmp]
      simp only [hvn0, hvn1, hfk, hsqrt, if_true]
      rw [abs_of_neg hlt, show (-1 : ℝ) * -d.vn 2 = d.vn 2 by ring, vec3_eta]
    · -- northern hemisphere
      subst hhemi
      rw [if_neg (by simp), if_neg hnum, if_neg hfcmp]
      simp only [hvn0, hvn1, hfk, hsqrt]
      rw [if_neg (by simp), abs_of_pos hgt, one_mul, vec3_eta]
    · exact absurd (le_antisymm (not_lt.mp hgt) (not_lt.mp hlt)) hvn2ne
  refine ⟨hmain, fun dp hdp => ?_⟩
  rw [hmain] at hdp
  injection hdp with h
  rw [h]

/-- Witness for C5 at the concrete Doppler point `dW5` with `Tspan = 1`. -/
theorem C5_witness :
    convertCanonical2Doppler (convertDoppler2Canonical dW5 1) .HEMI_NORTH 1 = some dW5 := by
  have e0 : dW5.vn 0 = 3 / 5 := rfl
  have e1 : dW5.vn 1 = 0 := rfl
  have e2 : dW5.vn 2 = 4 / 5 := rfl
  refine (C5_doppler_canonical_roundtrip dW5 .HEMI_NORTH 1 one_pos ?_ ?_ ?_ ?_).1
  · rw [e0, e1, e2]
    norm_num
  · rw [e0, e1]
    norm_num [EPS_REAL8]
  · unfold vectHemi
    rw [e2, if_neg (by norm_num), if_pos (by norm_num)]
  · rw [show dW5.fkdot 0 = 1 from rfl]
    norm_num

/-! ## C6: the canonical-to-Doppler error contract -/

/-- C6 (amended): for a canonical vector of the module's dimensions and a
North/South hemisphere tag, `convertCanonical2Doppler` errors exactly when
the recovered projection satisfies `nX² + nY² > 1 + delta` with `delta` the
`gsl_fcmp` relative tolerance at ε = 10⁻¹⁰; otherwise the third sky
component is `±sqrt |1 - nX² - nY²|` (the source uses `fabs`, not
`max 0 ·`), the sign taken from the hemisphere tag. -/
theorem C6_canonical2doppler_contract (canonical : List ℝ) (hemi : hemisphere_t)
    (Tspan : ℝ) (hlen3 : 3 ≤ canonical.length) (hlen6 : canonical.length ≤ 6)
    (hh : hemi = .HEMI_NORTH ∨ hemi = .HEMI_SOUTH) :
    (convertCanonical2Doppler canonical hemi Tspan = none ↔
      1 + gslDelta EPS_REAL8 (c2dVn2sq canonical Tspan) 1 < c2dVn2sq canonical Tspan) ∧
    ∀ dp, convertCanonical2Doppler canonical hemi Tspan = some dp →
      dp.vn 2 = (if hemi = .HEMI_SOUTH then (-1 : ℝ) else 1) *
        Real.sqrt |1 - c2dVn2sq canonical Tspan| := by
  have hhe : ¬(hemi ≠ .HEMI_NORTH ∧ hemi ≠ .HEMI_SOUTH) := by
    rcases hh with h | h <;> simp [h]
  have hnum : ¬c2dNumSpins canonical > 4 := by
    unfold c2dNumSpins
    omega
  have hiff : 0 < gsl_fcmp (c2dVn2sq canonical Tspan) 1 EPS_REAL8 ↔
      1 + gslDelta EPS_REAL8 (c2dVn2sq canonical Tspan) 1 < c2dVn2sq canonical Tspan := by
    rw [gsl_fcmp_pos_iff]
    constructor <;> intro <;> linarith
  unfold convertCanonical2Doppler
  rw [if_neg hhe, if_neg hnum]
  by_cases hf : 0 < gsl_fcmp (c2dVn2sq canonical Tspan) 1 EPS_REAL8
  · rw [if_pos hf]
    exact ⟨iff_of_true rfl (hiff.mp hf), fun dp h => absurd h (by simp)⟩
  · rw [if_neg hf]
    refine ⟨iff_of_false (by simp) (fun hc => hf (hiff.mpr hc)), fun dp h => ?_⟩
    injection h with h2
    rw [← h2]
    rfl

/-- Witness for C6 at the concrete canonical vector `originW`. -/
theorem C6_witness :
    convertCanonical2Doppler originW .HEMI_NORTH 1 = none ↔
      1 + gslDelta EPS_REAL8 (c2dVn2sq originW 1) 1 < c2dVn2sq originW 1 :=
  (C6_canonical2doppler_contract originW .HEMI_NORTH 1 (by norm_num [originW])
    (by norm_num [originW]) (Or.inl rfl)).1

lemma rorbPref_ne_zero : rorbPref ≠ 0 := by
  unfold rorbPref
  exact rorb_factor_ne_zero

lemma cIn6_fkdot0 : c2dFkdot cIn6 1 0 = 1 := by
  unfold c2dFkdot
  simp only [show ((0 : Fin 4) : ℕ) = 0 from rfl, if_pos rfl, if_true]
  rw [show cIn6.getD 0 0 = LAL_TWOPI from rfl, mul_one, div_self LAL_TWOPI_ne_zero]

lemma cIn6_vn0 : c2dVn0 cIn6 1 = Real.sqrt (1 + 1e-10) := by
  unfold c2dVn0 c2dPrefact
  rw [cIn6_fkdot0, mul_one]
  rw [show cIn6.getD 1 0 = -(rorbPref * Real.sqrt (1 + 1e-10)) from rfl, neg_neg]
  rw [show LAL_TWOPI * LAL_AU_SI / LAL_C_SI = rorbPref from rfl]
  rw [mul_comm, mul_div_assoc, div_self rorbPref_ne_zero, mul_one]

lemma cIn6_vn1 : c2dVn1 cIn6 1 = 0 := by
  unfold c2dVn1 c2dPrefact
  rw [cIn6_fkdot0, mul_one]
  rw [show cIn6.getD 2 0 = 0 from rfl, neg_zero, zero_div]

lemma cIn6_vn2sq : c2dVn2sq cIn6 1 = 1 + 1e-10 := by
  unfold c2dVn2sq
  rw [cIn6_vn0, cIn6_vn1, Real.sq_sqrt (by norm_num)]
  norm_num

lemma cIn6_fcmp : ¬0 < gsl_fcmp (c2dVn2sq cIn6 1) 1 EPS_REAL8 := by
  have heps : (0 : ℝ) ≤ EPS_REAL8 := by norm_num [EPS_REAL8]
  have hmax : max |(1 : ℝ) + 1e-10| |(1 : ℝ)| = 1 + 1e-10 := by
    rw [abs_of_nonneg (by norm_num), abs_one]
    exact max_eq_left (by norm_num)
  have hge := gslDelta_ge heps ((1 : ℝ) + 1e-10) 1 (by rw [hmax]; norm_num)
  rw [cIn6_vn2sq, gsl_fcmp_pos_iff]
  intro hlt
  rw [hmax] at hge
  norm_num [EPS_REAL8] at hge hlt
  linarith

lemma cIn6_result :
    convertCanonical2Doppler cIn6 .HEMI_NORTH 1 =
      some { vn := ![Real.sqrt (1 + 1e-10), 0, (1 : ℝ) / 100000]
             fkdot := c2dFkdot cIn6 1 } := by
  unfold convertCanonical2Doppler
  rw [if_neg (by simp), if_neg (by norm_num [c2dNumSpins, cIn6]), if_neg cIn6_fcmp]
  rw [cIn6_vn0, cIn6_vn1, cIn6_vn2sq, if_neg (by simp)]
  rw [show |1 - ((1 : ℝ) + 1e-10)| = 1e-10 by
    rw [show (1 : ℝ) - (1 + 1e-10) = -(1e-10) by norm_num, abs_neg,
      abs_of_nonneg (by norm_num)]]
  rw [show (1e-10 : ℝ) = ((1 : ℝ) / 100000) ^ 2 by norm_num,
    Real.sqrt_sq (by norm_num), one_mul]

/-- C6 counterexample: at the canonical vector `cIn6` (accepted by
`convertCanonical2Doppler` because its projection exceeds 1 only within the
tolerance), the produced third sky component is `10⁻⁵`, while the claim's
formula `sqrt (max 0 (1 - nX² - nY²))` gives `0`. -/
theorem C6_counterexample :
    (convertCanonical2Doppler cIn6 .HEMI_NORTH 1).map (fun dp => dp.vn 2) =
      some ((1 : ℝ) / 100000) ∧
    (convertCanonical2Doppler cIn6 .HEMI_NORTH 1).map
        (fun dp => Real.sqrt (max 0 (1 - (dp.vn 0 ^ 2 + dp.vn 1 ^ 2)))) = some 0 ∧
    ((1 : ℝ) / 100000) ≠ 0 := by
  rw [cIn6_result]
  refine ⟨?_, ?_, by norm_num⟩
  · rfl
  · rw [Option.map_some']
    have hv : (1 : ℝ) - (Real.sqrt (1 + 1e-10) ^ 2 + 0 ^ 2) = -(1e-10) := by
      rw [Real.sq_sqrt (by norm_num)]
      norm_num
    show some (Real.sqrt (max 0 (1 - (Real.sqrt (1 + 1e-10) ^ 2 + (0 : ℝ) ^ 2)))) = some 0
    rw [hv, max_eq_left (by norm_num), Real.sqrt_zero]

/-! ## The advance loop: state preservation and exhaustion -/

lemma XLALset_some (scan : DopplerLatticeScan) (idx : List ℤ)
    (h1 : scan.state = .STATE_READY) (h2 : idx.length = scan.dimSearch) :
    XLALsetCurrentLatticeIndex scan idx = some { scan with index := idx } := by
  unfold XLALsetCurrentLatticeIndex
  rw [if_pos ⟨h1, h2⟩]

lemma XLALset_state {scan : DopplerLatticeScan} {idx : List ℤ} {scan2 : DopplerLatticeScan}
    (h : XLALsetCurrentLatticeIndex scan idx = some scan2) : scan2.state = scan.state := by
  unfold XLALsetCurrentLatticeIndex at h
  split_ifs at h with hc
  injection h with h2
  rw [← h2]

lemma installIndex_state (scan : DopplerLatticeScan) (idx : List ℤ) :
    (installIndex scan idx).1.state = scan.state := by
  unfold installIndex
  cases hset : XLALsetCurrentLatticeIndex scan idx with
  | none => rfl
  | some s2 => exact XLALset_state hset

lemma installIndex_snd_ne_one (scan : DopplerLatticeScan) (idx : List ℤ) :
    (installIndex scan idx).2 ≠ 1 := by
  unfold installIndex
  cases XLALsetCurrentLatticeIndex scan idx <;> norm_num

lemma installIndex_ready (scan : DopplerLatticeScan) (idx : List ℤ)
    (h1 : scan.state = .STATE_READY) (h2 : idx.length = scan.dimSearch) :
    installIndex scan idx = ({ scan with index := idx }, 0) := by
  unfold installIndex
  rw [XLALset_some scan idx h1 h2]

lemma advanceLoop_state (scan : DopplerLatticeScan) :
    ∀ n a index0, scan.dimSearch - a ≤ n →
      ((advanceLoop scan index0 a).1).state = scan.state := by
  intro n
  induction n with
  | zero =>
      intro a index0 hn
      rw [advanceLoop, if_neg (by omega)]
  | succ m ih =>
      intro a index0 hn
      by_cases ha : a < scan.dimSearch
      · rw [advanceLoop, if_pos ha]
        dsimp only
        split_ifs <;>
          first
            | exact installIndex_state scan _
            | exact ih (a + 1) (index0.set a 0) (by omega)
      · rw [advanceLoop, if_neg ha]

lemma advanceLoop_exhaust (scan : DopplerLatticeScan) :
    ∀ n a index0, scan.dimSearch - a ≤ n →
      (advanceLoop scan index0 a).2 = 1 → (advanceLoop scan index0 a).1 = scan := by
  intro n
  induction n with
  | zero =>
      intro a index0 hn _
      rw [advanceLoop, if_neg (by omega)]
  | succ m ih =>
      intro a index0 hn hret
      by_cases ha : a < scan.dimSearch
      · rw [advanceLoop, if_pos ha] at hret ⊢
        dsimp only at hret ⊢
        split_ifs at hret ⊢ <;>
          first
            | exact absurd hret (installIndex_snd_ne_one scan _)
            | exact ih (a + 1) (index0.set a 0) (by omega) hret
      · rw [advanceLoop, if_neg ha]

/-! ## C2: the state machine of advance -/

/-- C2 (amended): advance never changes the stored scan state — a Ready
scan stays Ready whether advance returns Advanced (0) or reports exhaustion
(1); the `STATE_FINISHED` value is never installed, and advance called on a
non-Ready scan (a hypothetical Finished one included) fails with the error
return `-1` and changes nothing. -/
theorem C2_state_transitions (scan : DopplerLatticeScan) :
    ((XLALadvanceLatticeIndex scan).1).state = scan.state ∧
    (scan.state ≠ .STATE_READY → XLALadvanceLatticeIndex scan = (scan, -1)) := by
  constructor
  · unfold XLALadvanceLatticeIndex
    split_ifs with h
    · exact advanceLoop_state scan scan.dimSearch 0 scan.index (by omega)
    · rfl
  · intro h
    unfold XLALadvanceLatticeIndex
    rw [if_neg h]

/-! ## C9: advance is idempotent at exhaustion -/

/-- C9: when an advance call on a Ready scan reports that no lattice points
are left (return value 1), it leaves the scan — its stored current index
included — exactly as it was, and an immediately following advance call
again reports exhaustion. -/
theorem C9_advance_idempotent_at_exhaustion (scan : DopplerLatticeScan)
    (hst : scan.state = .STATE_READY)
    (hret : (XLALadvanceLatticeIndex scan).2 = 1) :
    (XLALadvanceLatticeIndex scan).1 = scan ∧
    (XLALadvanceLatticeIndex ((XLALadvanceLatticeIndex scan).1)).2 = 1 := by
  have h1 : (XLALadvanceLatticeIndex scan).1 = scan := by
    unfold XLALadvanceLatticeIndex at hret ⊢
    rw [if_pos hst] at hret ⊢
    exact advanceLoop_exhaust scan scan.dimSearch 0 scan.index (by omega) hret
  exact ⟨h1, by rw [h1]; exact hret⟩

/-! ## C3: advance follows the spec's outward walk -/

lemma isDopplerInsideBoundary_mem (d : dopplerParams_t) (b : dopplerBoundary_t) :
    isDopplerInsideBoundary d b = -1 ∨ isDopplerInsideBoundary d b = 0 ∨
      isDopplerInsideBoundary d b = 1 := by
  unfold isDopplerInsideBoundary
  split_ifs <;> simp

lemma isIndexInsideBoundary_mem (idx : List ℤ) (scan : DopplerLatticeScan) :
    isIndexInsideBoundary idx scan = -1 ∨ isIndexInsideBoundary idx scan = 0 ∨
      isIndexInsideBoundary idx scan = 1 := by
  unfold isIndexInsideBoundary
  split_ifs
  · left
    rfl
  · cases h : XLALindexToDoppler idx scan with
    | none => left; rfl
    | some d => exact isDopplerInsideBoundary_mem d scan.boundary

lemma advanceLoop_eq_spec (scan : DopplerLatticeScan)
    (hst : scan.state = .STATE_READY)
    (hno : ∀ idx : List ℤ, idx.length = scan.dimSearch →
      isIndexInsideBoundary idx scan ≠ -1) :
    ∀ n a index0, scan.dimSearch - a ≤ n → index0.length = scan.dimSearch →
      advanceLoop scan index0 a =
        (match specOutwardWalk (fun idx => isIndexInsideBoundary idx scan == 1)
            scan.dimSearch index0 a with
         | some j => ({ scan with index := j }, 0)
         | none => (scan, 1)) := by
  intro n
  induction n with
  | zero =>
      intro a index0 hn _
      rw [advanceLoop, if_neg (show ¬a < scan.dimSearch by omega), specOutwardWalk,
        if_pos (show scan.dimSearch ≤ a by omega)]
  | succ m ih =>
      intro a index0 hn hlen
      by_cases ha : a < scan.dimSearch
      case neg =>
        rw [advanceLoop, if_neg ha, specOutwardWalk,
          if_pos (show scan.dimSearch ≤ a by omega)]
      case pos =>
        have hlenset : ∀ v : ℤ, (index0.set a v).length = scan.dimSearch := fun v => by
          rw [List.length_set]
          exact hlen
        have hval : ∀ v : ℤ, isIndexInsideBoundary (index0.set a v) scan = 0 ∨
            isIndexInsideBoundary (index0.set a v) scan = 1 := fun v => by
          rcases isIndexInsideBoundary_mem (index0.set a v) scan with h | h | h
          · exact absurd h (hno _ (hlenset v))
          · exact Or.inl h
          · exact Or.inr h
        rw [advanceLoop, if_pos ha, specOutwardWalk,
          if_neg (show ¬scan.dimSearch ≤ a by omega)]
        dsimp only
        by_cases hgo : index0.getD a 0 < 0
        · -- going down
          rw [show (if ¬index0.getD a 0 < 0 then (1 : ℤ) else -1) = -1 from
              if_neg (fun hc => hc hgo),
            show index0.getD a 0 + (-1 : ℤ) = index0.getD a 0 - 1 by ring,
            show (if 0 ≤ index0.getD a 0 then index0.set a (index0.getD a 0 + 1)
                else index0.set a (index0.getD a 0 - 1)) =
                index0.set a (index0.getD a 0 - 1) from if_neg (not_le.mpr hgo)]
          rcases hval (index0.getD a 0 - 1) with h0 | h1
          · rw [if_neg (show
                ¬isIndexInsideBoundary (index0.set a (index0.getD a 0 - 1)) scan ≠ 0 from
                  by rw [h0]; decide),
              if_neg (show ¬(isIndexInsideBoundary (index0.set a (index0.getD a 0 - 1))
                  scan == 1) = true from by rw [h0]; decide),
              if_neg (show ¬(¬index0.getD a 0 < 0 ∧
                isIndexInsideBoundary (index0.set a (-1)) scan ≠ 0) from
                  fun hc => hc.1 hgo),
              if_neg (show ¬(0 ≤ index0.getD a 0 ∧
                (isIndexInsideBoundary (index0.set a (-1)) scan == 1) = true) from
                  fun hc => absurd hc.1 (not_le.mpr hgo))]
            exact ih (a + 1) (index0.set a 0) (by omega) (hlenset 0)
          · rw [if_pos (show
                isIndexInsideBoundary (index0.set a (index0.getD a 0 - 1)) scan ≠ 0 from
                  by rw [h1]; decide),
              installIndex_ready scan _ hst (hlenset _),
              if_pos (show (isIndexInsideBoundary (index0.set a (index0.getD a 0 - 1))
                  scan == 1) = true from by rw [h1]; decide)]
        · -- going up
          rw [show (if ¬index0.getD a 0 < 0 then (1 : ℤ) else -1) = 1 from if_pos hgo,
            show (if 0 ≤ index0.getD a 0 then index0.set a (index0.getD a 0 + 1)
                else index0.set a (index0.getD a 0 - 1)) =
                index0.set a (index0.getD a 0 + 1) from if_pos (not_lt.mp hgo)]
          rcases hval (index0.getD a 0 + 1) with h0 | h1
          · rw [if_neg (show
                ¬isIndexInsideBoundary (index0.set a (index0.getD a 0 + 1)) scan ≠ 0 from
                  by rw [h0]; decide),
              if_neg (show ¬(isIndexInsideBoundary (index0.set a (index0.getD a 0 + 1))
                  scan == 1) = true from by rw [h0]; decide)]
            rcases hval (-1) with g0 | g1
            · rw [if_neg (show ¬(¬index0.getD a 0 < 0 ∧
                  isIndexInsideBoundary (index0.set a (-1)) scan ≠ 0) from
                    fun hc => by rw [g0] at hc; exact hc.2 rfl),
                if_neg (show ¬(0 ≤ index0.getD a 0 ∧
                  (isIndexInsideBoundary (index0.set a (-1)) scan == 1) = true) from
                    fun hc => by rw [g0] at hc; exact absurd hc.2 (by decide))]
              exact ih (a + 1) (index0.set a 0) (by omega) (hlenset 0)
            · rw [if_pos (show (¬index0.getD a 0 < 0 ∧
                  isIndexInsideBoundary (index0.set a (-1)) scan ≠ 0) from
                    ⟨hgo, by rw [g1]; decide⟩),
                installIndex_ready scan _ hst (hlenset _),
                if_pos (show (0 ≤ index0.getD a 0 ∧
                  (isIndexInsideBoundary (index0.set a (-1)) scan == 1) = true) from
                    ⟨not_lt.mp hgo, by rw [g1]; decide⟩)]
          · rw [if_pos (show
                isIndexInsideBoundary (index0.set a (index0.getD a 0 + 1)) scan ≠ 0 from
                  by rw [h1]; decide),
              installIndex_ready scan _ hst (hlenset _),
              if_pos (show (isIndexInsideBoundary (index0.set a (index0.getD a 0 + 1))
                  scan == 1) = true from by rw [h1]; decide)]

/-- C3: on a Ready scan whose inside test reports no errors on indices of
the scan's dimension, `XLALadvanceLatticeIndex` computes exactly the spec's
outward walk `specOutwardWalk`: it installs the first trial index the walk
accepts and returns 0, and returns 1 (Finished) exactly when the walk
exhausts every axis up to the search dimension.  (`0 < dimSearch` records
that the C do-while loop is modelled for the nonempty dimensions the
scanner uses.) -/
theorem C3_advance_follows_outward_walk (scan : DopplerLatticeScan)
    (hst : scan.state = .STATE_READY)
    (hlen : scan.index.length = scan.dimSearch)
    (_hdim : 0 < scan.dimSearch)
    (hno : ∀ idx : List ℤ, idx.length = scan.dimSearch →
      isIndexInsideBoundary idx scan ≠ -1) :
    XLALadvanceLatticeIndex scan =
      (match specOutwardWalk (fun idx => isIndexInsideBoundary idx scan == 1)
          scan.dimSearch scan.index 0 with
       | some j => ({ scan with index := j }, 0)
       | none => (scan, 1)) := by
  unfold XLALadvanceLatticeIndex
  rw [if_pos hst]
  exact advanceLoop_eq_spec scan hst hno scan.dimSearch 0 scan.index (by omega) hlen

/-! ## Concrete evaluation of the scans `scanW` and `scanBug` -/

lemma advanceLoop_step_miss (scan : DopplerLatticeScan) (index0 : List ℤ) (a : ℕ)
    (ha : a < scan.dimSearch)
    (h1 : isIndexInsideBoundary
      (index0.set a (index0.getD a 0 + if ¬index0.getD a 0 < 0 then 1 else -1)) scan = 0)
    (h2 : isIndexInsideBoundary (index0.set a (-1)) scan = 0) :
    advanceLoop scan index0 a = advanceLoop scan (index0.set a 0) (a + 1) := by
  rw [advanceLoop, if_pos ha]
  dsimp only
  rw [if_neg (fun hc => hc h1), if_neg (fun hc => hc.2 h2)]

lemma advanceLoop_first_install (scan : DopplerLatticeScan) (index0 : List ℤ)
    (ha : 0 < scan.dimSearch)
    (hin : isIndexInsideBoundary
      (index0.set 0 (index0.getD 0 0 + if ¬index0.getD 0 0 < 0 then 1 else -1)) scan ≠ 0) :
    advanceLoop scan index0 0 =
      installIndex scan
        (index0.set 0 (index0.getD 0 0 + if ¬index0.getD 0 0 < 0 then 1 else -1)) := by
  rw [advanceLoop, if_pos ha]
  dsimp only
  rw [if_pos hin]

lemma advanceLoop_done (scan : DopplerLatticeScan) (index0 : List ℤ) (a : ℕ)
    (ha : ¬a < scan.dimSearch) : advanceLoop scan index0 a = (scan, 1) := by
  rw [advanceLoop, if_neg ha]

lemma offsetW (idx : List ℤ) (h : idx.length = 3) :
    indexToCanonicalOffset 6 idx G0W = some [0, 0, 0, 0, 0, 0] := by
  unfold indexToCanonicalOffset
  rw [if_neg (by simp [G0W, h]), if_neg (by rw [h]; norm_num)]
  have hz : ∀ i : ℕ,
      (if i < idx.length then
        ∑ j ∈ Finset.range idx.length, (idx.getD j 0 : ℝ) * G0W.get j i
      else 0) = 0 := by
    intro i
    split_ifs
    · simp [G0W]
    · rfl
  rw [show List.range 6 = [0, 1, 2, 3, 4, 5] from rfl]
  simp only [List.map, hz]

lemma gsl_fcmp_far {eps x y : ℝ} (heps : 0 ≤ eps) (hm : max |x| |y| ≠ 0)
    (h : eps * (2 * max |x| |y|) < |x - y|) : gsl_fcmp x y eps ≠ 0 := by
  intro hc
  rw [gsl_fcmp_eq_zero_iff] at hc
  have := gslDelta_le heps x y hm
  linarith

lemma fcmp_five_zero : gsl_fcmp 5 0 (1e-10) ≠ 0 := by
  have h5 : |(5 : ℝ)| = 5 := abs_of_nonneg (by norm_num)
  refine gsl_fcmp_far (by norm_num) ?_ ?_
  · rw [h5, abs_zero]
    norm_num
  · rw [h5, abs_zero, show |(5 : ℝ) - 0| = 5 from by rw [sub_zero, h5]]
    norm_num

lemma skyW_miss : vect2DInPolygon ((0 : ℝ), (0 : ℝ)) boundaryW.skyRegion = 0 := by
  show vect2DInPolygon ((0 : ℝ), (0 : ℝ)) [((5 : ℝ), (5 : ℝ))] = 0
  unfold vect2DInPolygon
  dsimp only
  rw [if_pos (show ([((5 : ℝ), (5 : ℝ))]).length = 1 from rfl),
    if_neg (show ¬(gsl_fcmp (([((5 : ℝ), (5 : ℝ))]).getD 0 (0, 0)).1 0 1e-10 = 0 ∧
        gsl_fcmp (([((5 : ℝ), (5 : ℝ))]).getD 0 (0, 0)).2 0 1e-10 = 0) from
      fun hc => fcmp_five_zero hc.1)]

lemma inside_boundaryW_of (d : dopplerParams_t) (h0 : d.vn 0 = 0) (h1 : d.vn 1 = 0) :
    isDopplerInsideBoundary d boundaryW = 0 := by
  have hsky : vect2DInPolygon (d.vn 0, d.vn 1) boundaryW.skyRegion = 0 := by
    rw [h0, h1]
    exact skyW_miss
  unfold isDopplerInsideBoundary
  rw [hsky, if_neg (by norm_num), if_neg (fun hc => hc.1 rfl)]

lemma c2d_originW : convertCanonical2Doppler originW .HEMI_NORTH 1 =
    some { vn := ![0, 0, 1], fkdot := c2dFkdot originW 1 } := by
  have hv0 : c2dVn0 originW 1 = 0 := by
    unfold c2dVn0
    rw [show originW.getD 1 0 = 0 from rfl, neg_zero, zero_div]
  have hv1 : c2dVn1 originW 1 = 0 := by
    unfold c2dVn1
    rw [show originW.getD 2 0 = 0 from rfl, neg_zero, zero_div]
  have hsq : c2dVn2sq originW 1 = 0 := by
    unfold c2dVn2sq
    rw [hv0, hv1]
    norm_num
  have hf : ¬0 < gsl_fcmp (c2dVn2sq originW 1) 1 EPS_REAL8 := by
    rw [hsq]
    exact gsl_fcmp_not_pos_of_le (by norm_num [EPS_REAL8]) (by norm_num)
  unfold convertCanonical2Doppler
  rw [if_neg (by simp), if_neg (by norm_num [c2dNumSpins, originW]), if_neg hf]
  rw [hv0, hv1, hsq, if_neg (by simp)]
  rw [show |1 - (0 : ℝ)| = 1 from by norm_num, Real.sqrt_one, one_mul]

lemma insideW (idx : List ℤ) (h : idx.length = 3) :
    isIndexInsideBoundary idx scanW = 0 := by
  have hdop : XLALindexToDoppler idx scanW =
      some { vn := ![0, 0, 1], fkdot := c2dFkdot originW 1 } := by
    unfold XLALindexToDoppler
    rw [show indexToCanonicalOffset scanW.latticeOrigin.length idx scanW.latticeGenerator =
        some [0, 0, 0, 0, 0, 0] from offsetW idx h]
    dsimp only
    rw [show List.zipWith (· + ·) [(0 : ℝ), 0, 0, 0, 0, 0] scanW.latticeOrigin = originW from by
      show List.zipWith (· + ·) [(0 : ℝ), 0, 0, 0, 0, 0]
        [LAL_TWOPI, 0, 0, 0, 0, 0] = [LAL_TWOPI, 0, 0, 0, 0, 0]
      norm_num]
    exact c2d_originW
  unfold isIndexInsideBoundary
  rw [if_neg (fun hc => hc rfl), hdop]
  exact inside_boundaryW_of _ rfl rfl

lemma advance_scanW : XLALadvanceLatticeIndex scanW = (scanW, 1) := by
  unfold XLALadvanceLatticeIndex
  rw [if_pos (show scanW.state = .STATE_READY from rfl)]
  rw [advanceLoop_step_miss scanW scanW.index 0 (by decide)
    (insideW _ (by decide)) (insideW _ (by decide))]
  rw [advanceLoop_step_miss scanW (scanW.index.set 0 0) 1 (by decide)
    (insideW _ (by decide)) (insideW _ (by decide))]
  rw [advanceLoop_step_miss scanW ((scanW.index.set 0 0).set 1 0) 2 (by decide)
    (insideW _ (by decide)) (insideW _ (by decide))]
  exact advanceLoop_done scanW _ 3 (by decide)

/-- C2 counterexample: on the Ready scan `scanW` the very first advance
call reports exhaustion (return value 1), yet the scan's state field is
still `STATE_READY` — the claimed transition Ready→Finished never happens. -/
theorem C2_counterexample :
    (XLALadvanceLatticeIndex scanW).2 = 1 ∧
    ((XLALadvanceLatticeIndex scanW).1).state = .STATE_READY ∧
    scan_state_t.STATE_READY ≠ scan_state_t.STATE_FINISHED := by
  rw [advance_scanW]
  exact ⟨rfl, rfl, by decide⟩

/-- Witness for C2 (amended) at `scanW` and at a hypothetical finished scan. -/
theorem C2_witness :
    ((XLALadvanceLatticeIndex scanW).1).state = scanW.state ∧
    XLALadvanceLatticeIndex { scanW with state := .STATE_FINISHED } =
      ({ scanW with state := .STATE_FINISHED }, -1) :=
  ⟨(C2_state_transitions scanW).1,
   (C2_state_transitions { scanW with state := .STATE_FINISHED }).2 (by decide)⟩

/-- Witness for C9 at the exhausted scan `scanW`. -/
theorem C9_witness :
    (XLALadvanceLatticeIndex scanW).1 = scanW ∧
    (XLALadvanceLatticeIndex ((XLALadvanceLatticeIndex scanW).1)).2 = 1 :=
  C9_advance_idempotent_at_exhaustion scanW rfl (by rw [advance_scanW])

/-- Witness for C3 at the concrete scan `scanW`. -/
theorem C3_witness :
    XLALadvanceLatticeIndex scanW =
      (match specOutwardWalk (fun idx => isIndexInsideBoundary idx scanW == 1)
          scanW.dimSearch scanW.index 0 with
       | some j => ({ scanW with index := j }, 0)
       | none => (scanW, 1)) :=
  C3_advance_follows_outward_walk scanW rfl rfl (by decide)
    (fun idx h => by rw [insideW idx h]; decide)

/-! ## C1: advance swallows inside-test errors -/

lemma offsetBug : indexToCanonicalOffset 6 [1, 0, 0] GBug = some [0, rorbPref, 0, 0, 0, 0] := by
  unfold indexToCanonicalOffset
  rw [if_neg (by simp [GBug]), if_neg (by norm_num)]
  rw [show List.range 6 = [0, 1, 2, 3, 4, 5] from rfl]
  simp only [List.map]
  norm_num [GBug, Finset.sum_range_succ]

lemma habs41 : max |(4 : ℝ)| |(1 : ℝ)| = 4 := by
  rw [abs_of_nonneg (by norm_num), abs_one]
  exact max_eq_left (by norm_num)

lemma c2dBug : convertCanonical2Doppler [LAL_TWOPI, 2 * rorbPref, 0, 0, 0, 0]
    .HEMI_NORTH 1 = none := by
  have hfk0 : c2dFkdot [LAL_TWOPI, 2 * rorbPref, 0, 0, 0, 0] 1 0 = 1 := by
    unfold c2dFkdot
    simp only [show ((0 : Fin 4) : ℕ) = 0 from rfl, if_pos rfl, if_true]
    rw [show ([LAL_TWOPI, 2 * rorbPref, (0 : ℝ), 0, 0, 0]).getD 0 0 = LAL_TWOPI from rfl,
      mul_one, div_self LAL_TWOPI_ne_zero]
  have hv0 : c2dVn0 [LAL_TWOPI, 2 * rorbPref, 0, 0, 0, 0] 1 = -2 := by
    unfold c2dVn0 c2dPrefact
    rw [hfk0, mul_one]
    rw [show ([LAL_TWOPI, 2 * rorbPref, (0 : ℝ), 0, 0, 0]).getD 1 0 = 2 * rorbPref from rfl]
    rw [show LAL_TWOPI * LAL_AU_SI / LAL_C_SI = rorbPref from rfl]
    rw [neg_div, mul_div_assoc, div_self rorbPref_ne_zero, mul_one]
  have hv1 : c2dVn1 [LAL_TWOPI, 2 * rorbPref, 0, 0, 0, 0] 1 = 0 := by
    unfold c2dVn1 c2dPrefact
    rw [hfk0, mul_one]
    rw [show ([LAL_TWOPI, 2 * rorbPref, (0 : ℝ), 0, 0, 0]).getD 2 0 = 0 from rfl,
      neg_zero, zero_div]
  have hsq : c2dVn2sq [LAL_TWOPI, 2 * rorbPref, 0, 0, 0, 0] 1 = 4 := by
    unfold c2dVn2sq
    rw [hv0, hv1]
    norm_num
  have hfpos : 0 < gsl_fcmp (c2dVn2sq [LAL_TWOPI, 2 * rorbPref, 0, 0, 0, 0] 1) 1
      EPS_REAL8 := by
    rw [hsq, gsl_fcmp_pos_iff]
    have hle := gslDelta_le (show (0 : ℝ) ≤ EPS_REAL8 from by norm_num [EPS_REAL8])
      (4 : ℝ) 1 (by rw [habs41]; norm_num)
    rw [habs41] at hle
    norm_num [EPS_REAL8] at hle ⊢
    linarith
  unfold convertCanonical2Doppler
  rw [if_neg (by simp), if_neg (by norm_num [c2dNumSpins]), if_pos hfpos]

lemma insideBug : isIndexInsideBoundary [1, 0, 0] scanBug = -1 := by
  have hdop : XLALindexToDoppler [1, 0, 0] scanBug = none := by
    unfold XLALindexToDoppler
    rw [show indexToCanonicalOffset scanBug.latticeOrigin.length [1, 0, 0]
        scanBug.latticeGenerator = some [0, rorbPref, 0, 0, 0, 0] from offsetBug]
    dsimp only
    rw [show List.zipWith (· + ·) [(0 : ℝ), rorbPref, 0, 0, 0, 0] scanBug.latticeOrigin =
        [LAL_TWOPI, 2 * rorbPref, 0, 0, 0, 0] from by
      show List.zipWith (· + ·) [(0 : ℝ), rorbPref, 0, 0, 0, 0]
        [LAL_TWOPI, rorbPref, 0, 0, 0, 0] = [LAL_TWOPI, 2 * rorbPref, 0, 0, 0, 0]
      norm_num
      ring]
    exact c2dBug
  unfold isIndexInsideBoundary
  rw [if_neg (fun hc => hc rfl), hdop]

/-- C1 (the code at the failing input): on `scanBug` the inside-boundary
test reports the error `-1` for the first trial index `[1,0,0]` (its
canonical-to-Doppler conversion finds a sky vector outside the unit disk),
yet `XLALadvanceLatticeIndex` treats the `-1` as TRUE, installs that very
index as the new current index and returns 0 (success): the error is
swallowed and the stored index changes. -/
theorem C1_advance_installs_errored_index :
    isIndexInsideBoundary [1, 0, 0] scanBug = -1 ∧
    XLALadvanceLatticeIndex scanBug = ({ scanBug with index := [1, 0, 0] }, 0) ∧
    ([1, 0, 0] : List ℤ) ≠ scanBug.index := by
  refine ⟨insideBug, ?_, by decide⟩
  unfold XLALadvanceLatticeIndex
  rw [if_pos (show scanBug.state = .STATE_READY from rfl)]
  rw [advanceLoop_first_install scanBug scanBug.index (by decide)
    (show isIndexInsideBoundary (scanBug.index.set 0 (scanBug.index.getD 0 0 +
        if ¬scanBug.index.getD 0 0 < 0 then 1 else -1)) scanBug ≠ 0 from by
      rw [show scanBug.index.set 0 (scanBug.index.getD 0 0 +
          if ¬scanBug.index.getD 0 0 < 0 then 1 else -1) = [1, 0, 0] from by decide]
      rw [insideBug]
      decide)]
  rw [show scanBug.index.set 0 (scanBug.index.getD 0 0 +
      if ¬scanBug.index.getD 0 0 < 0 then 1 else -1) = [1, 0, 0] from by decide]
  exact installIndex_ready scanBug [1, 0, 0] rfl rfl

